import Mathlib

/-!
Shallow embedding of the go-hiring-challenge catalog service.

Prices are carried by the Go code as shopspring decimal.Decimal values:
a coefficient and a power-of-ten exponent, compared exactly after
rescaling to a common exponent.  Dec below mirrors that representation,
and Dec.val gives its rational denotation for semantic statements.  The
response layer calls InexactFloat64 only to render a decimal as a JSON
number; we keep the exact value, since the properties proved here
depend only on which price is chosen and on exact comparisons, not on
the JSON float rendering.  The price_lt filter value travels as a
float64 in Go; it is modelled here by the exact value of the decimal
literal it was parsed from.

Go errors are opaque values inspected only for nil-ness by the
handlers; we model them as strings.
-/

/-- Exact decimal number, mirroring shopspring decimal.Decimal: the
denoted number is value times ten to the exp. -/
structure Dec where
  value : Int
  exp : Int
deriving DecidableEq, Repr

namespace Dec

/-- Rational denotation of a decimal. -/
def val (d : Dec) : ℚ := (d.value : ℚ) * (10 : ℚ) ^ d.exp

/-- Coefficient of d after rescaling to the (smaller or equal)
exponent m, as decimal.Decimal rescale does before comparing. -/
def scaledTo (d : Dec) (m : Int) : Int := d.value * 10 ^ (d.exp - m).toNat

/-- Exact strict comparison of two decimals, as decimal.Decimal Cmp
(and the SQL decimal comparison): rescale both to the smaller exponent
and compare coefficients. -/
def blt (a b : Dec) : Bool :=
  let m := min a.exp b.exp
  decide (a.scaledTo m < b.scaledTo m)

/-- decimal.Decimal IsZero: the coefficient is zero. -/
def isZero (d : Dec) : Bool := d.value = 0

end Dec

namespace Models

/-- models/category.go: Category with unique code and display name. -/
structure Category where
  code : String
  name : String
deriving DecidableEq, Repr

/-- models (variant): name, sku and an own price; the zero decimal
value plays the role of an absent price. -/
structure Variant where
  name : String
  sku : String
  price : Dec
deriving DecidableEq, Repr

/-- models/products.go: Product with unique code, decimal price, its
category and its variants. -/
structure Product where
  code : String
  price : Dec
  category : Category
  variants : List Variant
deriving DecidableEq, Repr

/-- models/products_repository.go: ProductFilters.  An empty
CategoryCode means no category filter; a missing PriceLessThan means no
price filter. -/
structure ProductFilters where
  categoryCode : String
  priceLessThan : Option Dec
deriving DecidableEq, Repr

/-- models/products_repository.go: ErrProductNotFound. -/
def ErrProductNotFound : String := "product not found"

end Models

/-- Value of a list of decimal digit characters, most significant
first. -/
def digitsToNat (cs : List Char) : Nat :=
  cs.foldl (fun n c => 10 * n + (c.toNat - 48)) 0

/-- Embedding of Go strconv.Atoi as used by the handler: an optional
sign followed by one or more decimal digits, rejected when the value
falls outside the int64 range (Atoi then returns a non-nil error,
which the handler treats as an invalid input). -/
def atoi (s : String) : Option Int :=
  let cs := s.toList
  let signDigits : Int × List Char :=
    match cs with
    | '+' :: r => (1, r)
    | '-' :: r => (-1, r)
    | r => (1, r)
  let sign := signDigits.1
  let digits := signDigits.2
  if digits = [] then none
  else if digits.all Char.isDigit then
    let v : Int := sign * (digitsToNat digits : Int)
    if v < -(2 ^ 63) ∨ (2 ^ 63 - 1 : Int) < v then none else some v
  else none

/-- Embedding of Go strconv.ParseFloat on the decimal literal forms the
service receives: an optional sign, an integer part and/or a
fractional part, and an optional decimal exponent.  It returns the
exact decimal value of the literal (ParseFloat rounds it to the
nearest float64; the claims settled here depend only on parse success
or failure and on the scenarios in the spec, whose values are exact).
Special forms (inf, nan, hex mantissas, underscores) are not modelled;
no claim exercises them. -/
def parseGoFloat (s : String) : Option Dec :=
  let cs := s.toList
  let signRest : Int × List Char :=
    match cs with
    | '+' :: r => (1, r)
    | '-' :: r => (-1, r)
    | r => (1, r)
  let sign := signRest.1
  let r1 := signRest.2
  let intPart := r1.takeWhile Char.isDigit
  let r2 := r1.dropWhile Char.isDigit
  let fracRest : List Char × List Char :=
    match r2 with
    | '.' :: r => (r.takeWhile Char.isDigit, r.dropWhile Char.isDigit)
    | r => ([], r)
  let fracPart := fracRest.1
  let r3 := fracRest.2
  if (intPart = [] ∧ fracPart = []) ∨ ¬ intPart.all Char.isDigit ∨ ¬ fracPart.all Char.isDigit then
    none
  else
    let value : Int := sign * (digitsToNat (intPart ++ fracPart) : Int)
    match r3 with
    | [] => some { value := value, exp := -(fracPart.length : Int) }
    | 'e' :: r | 'E' :: r =>
      let esignRest : Int × List Char :=
        match r with
        | '+' :: r4 => (1, r4)
        | '-' :: r4 => (-1, r4)
        | r4 => (1, r4)
      let edigits := esignRest.2
      if edigits = [] then none
      else if edigits.all Char.isDigit then
        some { value := value
               exp := esignRest.1 * (digitsToNat edigits : Int) - (fracPart.length : Int) }
      else none
    | _ => none

namespace Catalog

/-- app/catalog/handler.go HandleGet, offset block (lines 51-58): the
default is 0; a present value replaces it only when Atoi succeeds and
the value is non-negative.  The query getter returns the empty string
for an absent parameter. -/
def normalizeOffset (s : String) : Int :=
  if s = "" then 0
  else
    match atoi s with
    | some o => if 0 ≤ o then o else 0
    | none => 0

/-- app/catalog/handler.go HandleGet, limit block (lines 60-70): the
default is 10; a present value that Atoi parses is clamped below at 1
and above at 100. -/
def normalizeLimit (s : String) : Int :=
  if s = "" then 10
  else
    match atoi s with
    | some l => if l < 1 then 1 else if 100 < l then 100 else l
    | none => 10

/-- app/catalog/handler.go HandleGet, price filter block (lines
75-80): the filter is set only when the parameter is present and
ParseFloat succeeds. -/
def priceFilterOf (s : String) : Option Dec :=
  if s = "" then none
  else
    match parseGoFloat s with
    | some val => some val
    | none => none

end Catalog

namespace Catalog

/-- app/catalog/handler.go: Category response shape. -/
structure CategoryResp where
  code : String
  name : String
deriving DecidableEq, Repr

/-- app/catalog/handler.go: Product response shape for the listing. -/
structure ProductResp where
  code : String
  price : Dec
  category : CategoryResp
deriving DecidableEq, Repr

/-- app/catalog/handler.go: Variant response shape. -/
structure VariantResp where
  name : String
  sku : String
  price : Dec
deriving DecidableEq, Repr

/-- app/catalog/handler.go: Response for the listing. -/
structure ListResponse where
  total : Int
  products : List ProductResp
deriving DecidableEq, Repr

/-- app/catalog/handler.go HandleGetProduct: anonymous detail
response. -/
structure DetailResponse where
  code : String
  price : Dec
  category : CategoryResp
  variants : List VariantResp
deriving DecidableEq, Repr

/-- Outcome of the list endpoint: an encoded 200 body, or the status
and message written by http.Error. -/
inductive ListReply where
  | ok (body : ListResponse)
  | httpError (status : Nat) (message : String)
deriving DecidableEq, Repr

/-- Outcome of the detail endpoint. -/
inductive DetailReply where
  | ok (body : DetailResponse)
  | httpError (status : Nat) (message : String)
deriving DecidableEq, Repr

/-- app/catalog/handler.go HandleGet, lines 94-103: mapping one stored
product to its listing response row (Price rendered via
InexactFloat64, modelled by the exact value). -/
def mapProduct (p : Models.Product) : ProductResp :=
  { code := p.code
    price := p.price
    category := { code := p.category.code, name := p.category.name } }

/-- app/catalog/handler.go HandleGetProduct, lines 124-152: mapping the
stored product to the detail response; a variant whose own price
IsZero takes the parent product price. -/
def buildDetail (product : Models.Product) : DetailResponse :=
  let variants := product.variants.map (fun v =>
    let price := if v.price.isZero then product.price else v.price
    { name := v.name, sku := v.sku, price := price : VariantResp })
  { code := product.code
    price := product.price
    category := { code := product.category.code, name := product.category.name }
    variants := variants }

end Catalog

/-- app/catalog/handler_test.go MockProductRepo: in-memory product
store used by the handler tests, with the fields recording the last
call arguments. -/
structure MockProductRepo where
  sourceProducts : List Models.Product
  err : Option String := none
  lastCalledOffset : Int := 0
  lastCalledLimit : Int := 0
  lastCalledFilters : Models.ProductFilters := { categoryCode := "", priceLessThan := none }
  lastCalledCode : String := ""
deriving DecidableEq, Repr

namespace MockProductRepo

/-- One product against the filters, as in both
ProductsRepository.GetFilteredProducts (SQL WHERE clauses) and
MockProductRepo.GetFilteredProducts: the category filter applies only
when non-empty, the price filter only when present, and both must
hold. -/
def matchesFilters (f : Models.ProductFilters) (p : Models.Product) : Bool :=
  (f.categoryCode == "" || p.category.code == f.categoryCode) &&
    (match f.priceLessThan with
     | none => true
     | some q => p.price.blt q)

/-- app/catalog/handler_test.go MockProductRepo.GetFilteredProducts:
record the arguments, fail when Err is set, otherwise filter in source
order, count before paginating, and slice page = filtered[start:end]
with start and end clamped to the filtered length.  The slice is
modelled by drop and take; it coincides with the Go slice for the
in-range arguments the handler produces. -/
def getFilteredProducts (m : MockProductRepo) (offset limit : Int)
    (f : Models.ProductFilters) :
    MockProductRepo × Except String (List Models.Product × Int) :=
  let m1 := { m with lastCalledOffset := offset, lastCalledLimit := limit,
                     lastCalledFilters := f }
  match m1.err with
  | some e => (m1, Except.error e)
  | none =>
    let filtered := m1.sourceProducts.filter (fun p => matchesFilters f p)
    let total : Int := filtered.length
    let start := if (filtered.length : Int) < offset then (filtered.length : Int) else offset
    let stop := if (filtered.length : Int) < offset + limit then (filtered.length : Int)
                else offset + limit
    let page := (filtered.drop start.toNat).take (stop - start).toNat
    (m1, Except.ok (page, total))

/-- app/catalog/handler_test.go MockProductRepo.GetByCode: record the
code, fail when Err is set, otherwise the first product with that
code, or ErrProductNotFound. -/
def getByCode (m : MockProductRepo) (code : String) :
    MockProductRepo × Except String Models.Product :=
  let m1 := { m with lastCalledCode := code }
  match m1.err with
  | some e => (m1, Except.error e)
  | none =>
    match m1.sourceProducts.find? (fun p => p.code == code) with
    | some p => (m1, Except.ok p)
    | none => (m1, Except.error Models.ErrProductNotFound)

end MockProductRepo

namespace Catalog

/-- app/catalog/handler.go HandleGet wired to the mock store:
normalize offset and limit, build the filters, delegate, and either
write the error via http.Error with the raw error text and status 500,
or encode the 200 response. -/
def handleGetM (m : MockProductRepo) (offsetStr limitStr categoryStr priceStr : String) :
    MockProductRepo × ListReply :=
  let offset := normalizeOffset offsetStr
  let limit := normalizeLimit limitStr
  let categoryCode := categoryStr
  let priceFilter := priceFilterOf priceStr
  let filters : Models.ProductFilters :=
    { categoryCode := categoryCode, priceLessThan := priceFilter }
  let call := m.getFilteredProducts offset limit filters
  match call.2 with
  | Except.error e => (call.1, ListReply.httpError 500 e)
  | Except.ok (res, total) =>
    (call.1, ListReply.ok { total := total, products := res.map mapProduct })

/-- app/catalog/handler.go HandleGetProduct wired to the mock store:
call GetByCode with the path-bound code; on any error write status 404
with the message Product not found; otherwise build the detail
response. -/
def handleGetProductM (m : MockProductRepo) (code : String) :
    MockProductRepo × DetailReply :=
  let call := m.getByCode code
  match call.2 with
  | Except.error _ => (call.1, DetailReply.httpError 404 "Product not found")
  | Except.ok p => (call.1, DetailReply.ok (buildDetail p))

end Catalog

/-- app/categories/handler_test.go MockCategoryRepo: in-memory
category store recording the last saved category. -/
structure MockCategoryRepo where
  categories : List Models.Category := []
  createErr : Option String := none
  listErr : Option String := none
  lastSaved : Option Models.Category := none
deriving DecidableEq, Repr

/-- app/categories/handler_test.go MockCategoryRepo.CreateCategory:
record the category, then report CreateErr. -/
def MockCategoryRepo.createCategory (m : MockCategoryRepo) (c : Models.Category) :
    MockCategoryRepo × Option String :=
  ({ m with lastSaved := some c }, m.createErr)

namespace Categories

/-- Result of decoding the JSON request body into the code and name
fields: a body that is not valid JSON fails to decode; a decoded
object yields its code and name fields, the empty string when a field
is missing. -/
inductive BodyDecode where
  | malformed
  | decoded (code : String) (name : String)
deriving DecidableEq, Repr

/-- Outcome of the create endpoint. -/
inductive CreateReply where
  | created (message : String)
  | httpError (status : Nat) (message : String)
deriving DecidableEq, Repr

/-- app/categories/handler.go HandleCreate wired to the mock store:
bad JSON gives 400 Invalid JSON body; an empty code or name gives 400
Missing code or name before the store is touched; a store error gives
500 Failed to create category; otherwise 201 with the success
message. -/
def handleCreateM (m : MockCategoryRepo) (body : BodyDecode) :
    MockCategoryRepo × CreateReply :=
  match body with
  | BodyDecode.malformed => (m, CreateReply.httpError 400 "Invalid JSON body")
  | BodyDecode.decoded code name =>
    if code = "" ∨ name = "" then
      (m, CreateReply.httpError 400 "Missing code or name")
    else
      let call := m.createCategory { code := code, name := name }
      match call.2 with
      | some _ => (call.1, CreateReply.httpError 500 "Failed to create category")
      | none => (call.1, CreateReply.created "Category created successfully")

end Categories

example : atoi "" = none := by decide
example : atoi "-10" = some (-10) := by decide
example : atoi "200" = some 200 := by decide
example : atoi "abc" = none := by decide
example : parseGoFloat "30" = some { value := 30, exp := 0 } := by decide
example : parseGoFloat "24.99" = some { value := 2499, exp := -2 } := by decide
example : parseGoFloat "def" = none := by decide
example : Catalog.normalizeOffset "-10" = 0 := by decide
example : Catalog.normalizeLimit "200" = 100 := by decide
example : Dec.blt { value := 2499, exp := -2 } { value := 30, exp := 0 } = true := by decide

/-- Test product from app/catalog/handler_test.go: PROD001, shoes,
19.99. -/
def prod001 : Models.Product :=
  { code := "PROD001", price := { value := 1999, exp := -2 }
    category := { code := "shoes", name := "Shoes" }, variants := [] }

/-- Test product: PROD002, clothing, 24.99. -/
def prod002 : Models.Product :=
  { code := "PROD002", price := { value := 2499, exp := -2 }
    category := { code := "clothing", name := "Clothing" }, variants := [] }

/-- Test product: PROD003, accessories, 10.00. -/
def prod003 : Models.Product :=
  { code := "PROD003", price := { value := 1000, exp := -2 }
    category := { code := "accessories", name := "Accessories" }, variants := [] }

/-- Test product: PROD004, clothing, 95.50. -/
def prod004 : Models.Product :=
  { code := "PROD004", price := { value := 9550, exp := -2 }
    category := { code := "clothing", name := "Clothing" }, variants := [] }

/-- Mock store holding the four test products of the spec scenario. -/
def scenarioRepo : MockProductRepo :=
  { sourceProducts := [prod001, prod002, prod003, prod004] }

example :
    (Catalog.handleGetM scenarioRepo "" "" "clothing" "30").2 =
      Catalog.ListReply.ok { total := 1, products := [Catalog.mapProduct prod002] } := by
  decide

theorem Dec.scaledTo_cast (d : Dec) (m : Int) (h : m ≤ d.exp) :
    ((d.scaledTo m : Int) : ℚ) = d.val * (10 : ℚ) ^ (-m) := by
  have h10 : (10 : ℚ) ≠ 0 := by norm_num
  have hnn : 0 ≤ d.exp - m := sub_nonneg.mpr h
  calc ((d.scaledTo m : Int) : ℚ)
      = (d.value : ℚ) * (10 : ℚ) ^ (d.exp - m).toNat := by
        simp [Dec.scaledTo]
    _ = (d.value : ℚ) * (10 : ℚ) ^ ((d.exp - m : Int)) := by
        rw [← zpow_natCast (10 : ℚ) (d.exp - m).toNat, Int.toNat_of_nonneg hnn]
    _ = d.val * (10 : ℚ) ^ (-m) := by
        rw [Dec.val, sub_eq_add_neg, zpow_add₀ h10, mul_assoc]

/-- The decimal comparison used by the store agrees with the rational
denotation: blt is exactly strict order on values. -/
theorem Dec.blt_iff_val (a b : Dec) : a.blt b = true ↔ a.val < b.val := by
  have hpos : (0 : ℚ) < (10 : ℚ) ^ (-(min a.exp b.exp)) :=
    zpow_pos (by norm_num) _
  have ha := Dec.scaledTo_cast a (min a.exp b.exp) (min_le_left _ _)
  have hb := Dec.scaledTo_cast b (min a.exp b.exp) (min_le_right _ _)
  have hcast : a.scaledTo (min a.exp b.exp) < b.scaledTo (min a.exp b.exp) ↔
      ((a.scaledTo (min a.exp b.exp) : Int) : ℚ) < ((b.scaledTo (min a.exp b.exp) : Int) : ℚ) := by
    exact_mod_cast Iff.rfl
  unfold Dec.blt
  rw [decide_eq_true_iff, hcast, ha, hb, mul_lt_mul_right hpos]

/-- IsZero agrees with the rational denotation. -/
theorem Dec.isZero_iff_val (d : Dec) : d.isZero = true ↔ d.val = 0 := by
  have h10 : (10 : ℚ) ^ d.exp ≠ 0 := zpow_ne_zero _ (by norm_num)
  unfold Dec.isZero Dec.val
  simp [h10]

theorem list_take_min_length {α : Type} (l : List α) (k : Nat) :
    l.take (min k l.length) = l.take k := by
  rcases Nat.le_total k l.length with h | h
  · rw [min_eq_left h]
  · rw [min_eq_right h, List.take_of_length_le h, List.take_of_length_le (le_refl _)]

theorem list_slice_clamp {α : Type} (l : List α) (o k : Nat) :
    (l.drop (min o l.length)).take (min (o + k) l.length - min o l.length) =
      (l.drop o).take k := by
  rcases Nat.le_total o l.length with h | h
  · rw [min_eq_left h]
    have he : min (o + k) l.length - o = min k (l.length - o) := by omega
    rw [he, ← List.length_drop]
    exact list_take_min_length _ _
  · have h1 : min o l.length = l.length := min_eq_right h
    have h2 : min (o + k) l.length = l.length := by omega
    rw [h1, h2, Nat.sub_self, List.drop_length, List.drop_eq_nil_of_le h]
    simp

/-- C1: for every raw offset and limit query value, the list handler
normalizes offset to max(parse(offset) or 0, 0) and limit to
clamp(parse(limit) or 10, 1, 100); in particular offset=-10 and
limit=200 normalize to 0 and 100, and limit=0 normalizes to 1. -/
theorem C1_pagination_normalization :
    (∀ s : String, Catalog.normalizeOffset s = max ((atoi s).getD 0) 0) ∧
    (∀ s : String, Catalog.normalizeLimit s = min (max ((atoi s).getD 10) 1) 100) ∧
    Catalog.normalizeOffset "-10" = 0 ∧ Catalog.normalizeLimit "200" = 100 ∧
    Catalog.normalizeLimit "0" = 1 := by
  have hnil : atoi "" = none := by decide
  refine ⟨?_, ?_, by decide, by decide, by decide⟩
  · intro s
    unfold Catalog.normalizeOffset
    by_cases hs : s = ""
    · rw [if_pos hs, hs, hnil]
      rfl
    · rw [if_neg hs]
      cases h : atoi s with
      | none => rfl
      | some o =>
        simp only [Option.getD_some]
        split <;> omega
  · intro s
    unfold Catalog.normalizeLimit
    by_cases hs : s = ""
    · rw [if_pos hs, hs, hnil]
      rfl
    · rw [if_neg hs]
      cases h : atoi s with
      | none => rfl
      | some l =>
        simp only [Option.getD_some]
        split
        · omega
        · split <;> omega

/-- C2: in the detail response, a variant whose own price is zero
renders with the parent product price and a variant with a non-zero
own price renders with its own price; the stored prices are not
modified (the response carries the stored product price unchanged, and
the handler leaves the store contents untouched). -/
theorem C2_variant_price_inheritance (p : Models.Product) (v : Models.Variant) (i : Nat)
    (hv : p.variants[i]? = some v) :
    ((Catalog.buildDetail p).variants[i]?).map Catalog.VariantResp.price =
      some (if v.price.val = 0 then p.price else v.price) ∧
    (Catalog.buildDetail p).price = p.price ∧
    (∀ (m : MockProductRepo) (code : String),
      (Catalog.handleGetProductM m code).1.sourceProducts = m.sourceProducts) := by
  refine ⟨?_, rfl, ?_⟩
  · unfold Catalog.buildDetail
    by_cases h : v.price.val = 0
    · have hz : v.price.isZero = true := (Dec.isZero_iff_val v.price).mpr h
      simp [List.getElem?_map, hv, hz, h]
    · have hz : v.price.isZero = false := by
        cases hb : v.price.isZero
        · rfl
        · exact absurd ((Dec.isZero_iff_val v.price).mp hb) h
      simp [List.getElem?_map, hv, hz, h]
  · intro m code
    unfold Catalog.handleGetProductM MockProductRepo.getByCode
    cases herr : m.err with
    | some e => simp [herr]
    | none =>
      cases hf : m.sourceProducts.find? (fun p => p.code == code) with
      | some q => simp [herr, hf]
      | none => simp [herr, hf]

/-- Test product from app/catalog/handler_test.go detail tests:
PROD001 at 15.50 with a variant without a price and a variant priced
17.75. -/
def prodDetail001 : Models.Product :=
  { code := "PROD001", price := { value := 1550, exp := -2 }
    category := { code := "clothing", name := "Clothing" }
    variants :=
      [ { name := "Red Small", sku := "SKU001-A", price := { value := 0, exp := 0 } },
        { name := "Red Medium", sku := "SKU001-B", price := { value := 1775, exp := -2 } } ] }

theorem C2_variant_price_inheritance_witness :
    ((Catalog.buildDetail prodDetail001).variants[0]?).map Catalog.VariantResp.price =
      some (if ({ value := 0, exp := 0 } : Dec).val = 0 then prodDetail001.price
            else { value := 0, exp := 0 }) ∧
    (Catalog.buildDetail prodDetail001).price = prodDetail001.price ∧
    (∀ (m : MockProductRepo) (code : String),
      (Catalog.handleGetProductM m code).1.sourceProducts = m.sourceProducts) :=
  C2_variant_price_inheritance prodDetail001
    { name := "Red Small", sku := "SKU001-A", price := { value := 0, exp := 0 } } 0 (by decide)

/-- C3: for every offset at least 0, limit in 1..100 and filter set,
the filtered listing returns the post-filter pre-pagination count as
total, and a page equal to the contiguous slice of the filtered
sequence starting at offset of length at most limit. -/
theorem C3_listing_total_and_page (ps : List Models.Product) (offset limit : Int)
    (f : Models.ProductFilters) (ho : 0 ≤ offset) (h1 : 1 ≤ limit) (h2 : limit ≤ 100) :
    (({ sourceProducts := ps } : MockProductRepo).getFilteredProducts offset limit f).2 =
      Except.ok
        (((ps.filter (fun p => MockProductRepo.matchesFilters f p)).drop offset.toNat).take
            limit.toNat,
          ((ps.filter (fun p => MockProductRepo.matchesFilters f p)).length : Int)) ∧
    (((ps.filter (fun p => MockProductRepo.matchesFilters f p)).drop offset.toNat).take
        limit.toNat).length ≤ limit.toNat := by
  constructor
  · unfold MockProductRepo.getFilteredProducts
    set l := ps.filter (fun p => MockProductRepo.matchesFilters f p) with hl
    have hstart : ((if (l.length : Int) < offset then (l.length : Int) else offset)).toNat =
        min offset.toNat l.length := by
      split <;> omega
    have hstop : ((if (l.length : Int) < offset + limit then (l.length : Int)
            else offset + limit) -
          (if (l.length : Int) < offset then (l.length : Int) else offset)).toNat =
        min (offset.toNat + limit.toNat) l.length - min offset.toNat l.length := by
      split <;> split <;> omega
    simp only [hstart, hstop]
    rw [list_slice_clamp]
  · exact List.length_take_le _ _

theorem C3_listing_total_and_page_witness :
    (({ sourceProducts := [prod001, prod002, prod003, prod004] } : MockProductRepo).getFilteredProducts
        0 10 { categoryCode := "", priceLessThan := none }).2 =
      Except.ok
        ((([prod001, prod002, prod003, prod004].filter
              (fun p => MockProductRepo.matchesFilters
                { categoryCode := "", priceLessThan := none } p)).drop (0 : Int).toNat).take
            (10 : Int).toNat,
          (([prod001, prod002, prod003, prod004].filter
              (fun p => MockProductRepo.matchesFilters
                { categoryCode := "", priceLessThan := none } p)).length : Int)) ∧
    ((([prod001, prod002, prod003, prod004].filter
          (fun p => MockProductRepo.matchesFilters
            { categoryCode := "", priceLessThan := none } p)).drop (0 : Int).toNat).take
        (10 : Int).toNat).length ≤ (10 : Int).toNat :=
  C3_listing_total_and_page [prod001, prod002, prod003, prod004] 0 10
    { categoryCode := "", priceLessThan := none } (by decide) (by decide) (by decide)

/-- C4: with both a category and a price_lt filter, a product matches
iff its category code equals the filter value and its price value is
strictly below the threshold value; on the four spec products the
request category=clothing with price_lt=30 yields total 1 and the page
containing only PROD002. -/
theorem C4_conjunctive_filtering :
    (∀ (c : String) (q : Dec) (p : Models.Product), c ≠ "" →
      (MockProductRepo.matchesFilters { categoryCode := c, priceLessThan := some q } p = true ↔
        p.category.code = c ∧ p.price.val < q.val)) ∧
    (Catalog.handleGetM scenarioRepo "" "" "clothing" "30").2 =
      Catalog.ListReply.ok { total := 1, products := [Catalog.mapProduct prod002] } := by
  refine ⟨?_, by decide⟩
  intro c q p hc
  unfold MockProductRepo.matchesFilters
  rw [Bool.and_eq_true, Bool.or_eq_true, beq_iff_eq, beq_iff_eq]
  rw [Dec.blt_iff_val]
  constructor
  · rintro ⟨hcat | hcat, hlt⟩
    · exact absurd hcat hc
    · exact ⟨hcat, hlt⟩
  · rintro ⟨hcat, hlt⟩
    exact ⟨Or.inr hcat, hlt⟩

theorem C4_conjunctive_filtering_witness :
    MockProductRepo.matchesFilters
      { categoryCode := "clothing", priceLessThan := some { value := 30, exp := 0 } }
      prod002 = true :=
  (C4_conjunctive_filtering.1 "clothing" { value := 30, exp := 0 } prod002 (by decide)).mpr
    ⟨rfl, (Dec.blt_iff_val prod002.price { value := 30, exp := 0 }).mp (by decide)⟩

/-- C5: when the store succeeds, no query string values, however
malformed, make the list endpoint answer with an error response; an
unparsable price_lt yields an absent price filter, and an unparsable
offset or limit falls back to its default. -/
theorem C5_malformed_params_never_error :
    (∀ (m : MockProductRepo) (oS lS cS pS : String), m.err = none →
      ∃ body, (Catalog.handleGetM m oS lS cS pS).2 = Catalog.ListReply.ok body) ∧
    (∀ s : String, parseGoFloat s = none → Catalog.priceFilterOf s = none) ∧
    (∀ s : String, atoi s = none →
      Catalog.normalizeOffset s = 0 ∧ Catalog.normalizeLimit s = 10) := by
  refine ⟨?_, ?_, ?_⟩
  · intro m oS lS cS pS herr
    unfold Catalog.handleGetM MockProductRepo.getFilteredProducts
    simp only [herr]
    exact ⟨_, rfl⟩
  · intro s h
    unfold Catalog.priceFilterOf
    by_cases hs : s = ""
    · rw [if_pos hs]
    · rw [if_neg hs, h]
  · intro s h
    constructor
    · unfold Catalog.normalizeOffset
      by_cases hs : s = ""
      · rw [if_pos hs]
      · rw [if_neg hs, h]
    · unfold Catalog.normalizeLimit
      by_cases hs : s = ""
      · rw [if_pos hs]
      · rw [if_neg hs, h]

theorem C5_malformed_params_never_error_witness :
    (∃ body,
      (Catalog.handleGetM { sourceProducts := [prod001, prod002, prod003, prod004] }
          "abc" "xyz" "" "def").2 = Catalog.ListReply.ok body) ∧
    Catalog.priceFilterOf "def" = none ∧
    (Catalog.normalizeOffset "abc" = 0 ∧ Catalog.normalizeLimit "xyz" = 10) :=
  ⟨C5_malformed_params_never_error.1
      { sourceProducts := [prod001, prod002, prod003, prod004] } "abc" "xyz" "" "def" rfl,
    C5_malformed_params_never_error.2.1 "def" (by decide),
    C5_malformed_params_never_error.2.2 "abc" (by decide) |>.1,
    C5_malformed_params_never_error.2.2 "xyz" (by decide) |>.2⟩

/-- Mock store whose every call fails with a connectivity error, as in
the repository-error cases of the handler tests. -/
def dbErrorRepo : MockProductRepo :=
  { sourceProducts := [], err := some "db connection lost" }

/-- C6: the claim requires the detail endpoint to answer 404 Product
not found only for a missing product and 500 Failed to retrieve
product for any other store error.  The handler instead maps every
store error, including a connectivity failure, to the same 404
Product not found response, so the two failure modes are conflated:
the store-error response and the not-found response are identical, and
the required internal-error response is never produced. -/
theorem C6_detail_errors_conflated :
    (Catalog.handleGetProductM dbErrorRepo "PROD-ERR").2 =
      Catalog.DetailReply.httpError 404 "Product not found" ∧
    (Catalog.handleGetProductM { sourceProducts := [] } "PROD-ERR").2 =
      Catalog.DetailReply.httpError 404 "Product not found" ∧
    Catalog.DetailReply.httpError 404 "Product not found" ≠
      Catalog.DetailReply.httpError 500 "Failed to retrieve product" := by
  refine ⟨by decide, by decide, by decide⟩

/-- C7: the claim requires a store failure of the listing to surface
as a 500 response carrying the fixed message failed to get products.
The handler instead writes the raw store error text into the response:
with a store error reading db down the body is db down, not the fixed
message. -/
theorem C7_list_error_leaks_raw_text :
    (Catalog.handleGetM { sourceProducts := [], err := some "db down" } "" "" "" "").2 =
      Catalog.ListReply.httpError 500 "db down" ∧
    "db down" ≠ "failed to get products" := by
  refine ⟨by decide, by decide⟩

/-- C8: category creation: a malformed body answers 400 Invalid JSON
body; an empty code or name answers 400 Missing code or name, in both
cases with the store untouched; with a valid body a store failure
answers 500 Failed to create category, and a store success answers 201
Category created successfully. -/
theorem C8_category_create_cases (m : MockCategoryRepo) (code nm : String) :
    (Categories.handleCreateM m Categories.BodyDecode.malformed =
      (m, Categories.CreateReply.httpError 400 "Invalid JSON body")) ∧
    ((code = "" ∨ nm = "") →
      Categories.handleCreateM m (Categories.BodyDecode.decoded code nm) =
        (m, Categories.CreateReply.httpError 400 "Missing code or name")) ∧
    (code ≠ "" → nm ≠ "" → ∀ e, m.createErr = some e →
      (Categories.handleCreateM m (Categories.BodyDecode.decoded code nm)).2 =
        Categories.CreateReply.httpError 500 "Failed to create category") ∧
    (code ≠ "" → nm ≠ "" → m.createErr = none →
      (Categories.handleCreateM m (Categories.BodyDecode.decoded code nm)).2 =
        Categories.CreateReply.created "Category created successfully") := by
  refine ⟨rfl, ?_, ?_, ?_⟩
  · intro h
    simp only [Categories.handleCreateM]
    rw [if_pos h]
  · intro h1 h2 e he
    simp only [Categories.handleCreateM, MockCategoryRepo.createCategory]
    rw [if_neg (by simp [h1, h2])]
    simp [he]
  · intro h1 h2 he
    simp only [Categories.handleCreateM, MockCategoryRepo.createCategory]
    rw [if_neg (by simp [h1, h2])]
    simp [he]

theorem C8_category_create_cases_witness :
    (Categories.handleCreateM {} (Categories.BodyDecode.decoded "" "X") =
      ({}, Categories.CreateReply.httpError 400 "Missing code or name")) ∧
    ((Categories.handleCreateM {} (Categories.BodyDecode.decoded "shoes" "Shoes")).2 =
      Categories.CreateReply.created "Category created successfully") :=
  ⟨(C8_category_create_cases {} "" "X").2.1 (Or.inl rfl),
    (C8_category_create_cases {} "shoes" "Shoes").2.2.2 (by decide) (by decide) rfl⟩

/-- C10: the detail endpoint passes the path-bound code to the store
unvalidated: the store is invoked with exactly the given code, the
empty string included, and when no stored product carries that code
the answer is the 404 Product not found response. -/
theorem C10_detail_passes_code_through (m : MockProductRepo) (code : String) :
    (Catalog.handleGetProductM m code).1.lastCalledCode = code ∧
    (m.err = none → (∀ p ∈ m.sourceProducts, p.code ≠ code) →
      (Catalog.handleGetProductM m code).2 =
        Catalog.DetailReply.httpError 404 "Product not found") := by
  constructor
  · unfold Catalog.handleGetProductM MockProductRepo.getByCode
    cases herr : m.err with
    | some e => simp [herr]
    | none =>
      cases hf : m.sourceProducts.find? (fun p => p.code == code) with
      | some q => simp [herr, hf]
      | none => simp [herr, hf]
  · intro herr habs
    have hf : m.sourceProducts.find? (fun p => p.code == code) = none := by
      rw [List.find?_eq_none]
      intro p hp
      simp [habs p hp]
    unfold Catalog.handleGetProductM MockProductRepo.getByCode
    simp [herr, hf]

theorem C10_detail_passes_code_through_witness :
    (Catalog.handleGetProductM { sourceProducts := [prod001] } "").1.lastCalledCode = "" ∧
    (Catalog.handleGetProductM { sourceProducts := [prod001] } "").2 =
      Catalog.DetailReply.httpError 404 "Product not found" :=
  ⟨(C10_detail_passes_code_through { sourceProducts := [prod001] } "").1,
    (C10_detail_passes_code_through { sourceProducts := [prod001] } "").2 rfl
      (by intro p hp; simp at hp; rw [hp]; decide)⟩
